import Mathlib

/-!
Verification development for the test harness in `harness.py`:
a shallow embedding of the worker (`run_test`), the timeout supervisor
(`run_test_in_process`), the async wrapper (`run_test_wrapper`), the
orchestrator (`run_all_tests`), the aggregator (`get_score`) and the
report writer (`format_gradescope_output`, `write_gradescope_output`,
`write_gradescope_output_failure`), together with theorems settling the
specification claims about them.

Modelling conventions:
- Python values travelling through the result queue and stored in result
  records are modelled by the dynamic type `Value` (ints, bools, strings,
  `None`).  Floats are not modelled.
- A scaffold method call is modelled by a `Behavior`: it either returns a
  value after `t` seconds, raises an exception after `t` seconds, or
  diverges.  Wall-clock time is a natural number of seconds.
- Observable side effects (process spawn via `p.start()`, forced
  termination via `p.terminate()`, the reaping `p.join()`, and console
  prints) are collected in an explicit `Event` list.
-/

namespace Harness

/-- A dynamic Python value as it can appear on the result queue or in the
`score` field of a result dict.  `none` is Python's `None`. -/
inductive Value where
  | int : Int → Value
  | bool : Bool → Value
  | str : String → Value
  | none : Value
deriving DecidableEq, Repr, BEq

/-- Python truthiness of a `Value` (used by `filter(lambda r: r["score"], …)`
and by `test.get("visible", False)`). -/
def truthy : Value → Bool
  | .int n => n ≠ 0
  | .bool b => b
  | .str s => s ≠ ""
  | .none => false

/-- Whether a `Value` matches the structural pattern `case 1:` in
`run_test_wrapper` (Python literal patterns match by `==`, so `1`, `True`
match; `2`, strings, `None` do not). -/
def valueEqOne : Value → Bool
  | .int n => n = 1
  | .bool b => b
  | _ => false

/-- A test case: a dict with required keys `name` and `srcfile` and an
optional key `visible` (absent ↦ `Option.none`). -/
structure TestCase where
  name : String
  srcfile : String
  visible : Option Value
deriving DecidableEq, Repr, BEq

/-- Observable behaviour of one scaffold method call: return a value after
`t` seconds, raise an exception (message) after `t` seconds, or never
terminate. -/
inductive Behavior (α : Type) where
  | ret : Nat → α → Behavior α
  | exn : Nat → String → Behavior α
  | diverge : Behavior α

/-- Embedding of `AbstractTestScaffold` (harness.py:14-23): `setup` produces an
environment of type `E`; `run_test_case` produces the score value. -/
structure Scaffold (E : Type) where
  setup : TestCase → Behavior E
  run_test_case : TestCase → E → Behavior Value

/-- What the parent can observe of the worker process running `run_test`:
- `exits t q prints`: the worker function returned normally at time `t`
  with queue contents `q`, having printed `prints`;
- `exnOut t e`: an exception `e` escaped `run_test` at time `t` (the
  multiprocessing bootstrap then lets the process die with a traceback;
  the queue is left empty);
- `diverge`: the worker never finishes. -/
inductive RunTestObs where
  | exits : Nat → List Value → List String → RunTestObs
  | exnOut : Nat → String → RunTestObs
  | diverge : RunTestObs
deriving DecidableEq, Repr

/-- Embedding of `run_test` (harness.py:25-33).  `scaffold.setup(test_case)` is called
before the `try:` block, so an exception it raises escapes `run_test`;
only exceptions from `scaffold.run_test_case` are caught, logged with
`print(f"Exception during test: {exception}")`, and replaced by pushing
`0` onto the queue. -/
def run_test (s : Scaffold E) (tc : TestCase) : RunTestObs :=
  match s.setup tc with
  | .diverge => .diverge
  | .exn t e => .exnOut t e
  | .ret t env =>
    match s.run_test_case tc env with
    | .diverge => .diverge
    | .exn t2 e => .exits (t + t2) [.int 0] ["Exception during test: " ++ e]
    | .ret t2 v => .exits (t + t2) [v]  []

/-- Observable side effects of the harness. -/
inductive Event where
  | spawn : Event
  | terminate : Event
  | reapJoin : Event
  | printed : String → Event
deriving DecidableEq, Repr, BEq

/-- The parent-side logic of `run_test_in_process` (harness.py:35-46),
abstracted over the worker observation: `p.start()` (spawn), `p.join(timeout)`,
then if `p.is_alive()` do `p.terminate()`, `p.join()` and return `None`;
otherwise return the first queued value, or `0` if the queue is empty. -/
def supervise : RunTestObs → Nat → Value × List Event
  | .diverge, _ => (.none, [.spawn, .terminate, .reapJoin])
  | .exnOut t _, timeout =>
    if timeout < t then (.none, [.spawn, .terminate, .reapJoin])
    else (.int 0, [.spawn])
  | .exits t q prints, timeout =>
    if timeout < t then (.none, [.spawn, .terminate, .reapJoin])
    else
      match q with
      | [] => (.int 0, .spawn :: prints.map .printed)
      | v :: _ => (v, .spawn :: prints.map .printed)

/-- Embedding of `run_test_in_process` (harness.py:35-46): run `run_test` in a fresh
worker process supervised with `timeout`. -/
def run_test_in_process (s : Scaffold E) (tc : TestCase) (timeout : Nat) :
    Value × List Event :=
  supervise (run_test s tc) timeout

/-- The `match` of `run_test_wrapper` (harness.py:48-59) together with its
prints: `None ↦ TIMED OUT / 0`, `1 ↦ PASSED / 1`, anything else
`FAILED / 0`. -/
def classify (srcfile : String) : Value × List Event → Nat × List Event
  | (v, evs) =>
    let pre := Event.printed ("Running " ++ srcfile ++ "... ")
    if v = Value.none then (0, pre :: evs ++ [.printed ("TIMED OUT")])
    else if valueEqOne v then (1, pre :: evs ++ [.printed ("PASSED")])
    else (0, pre :: evs ++ [.printed ("FAILED")])

/-- Embedding of `run_test_wrapper` (harness.py:48-59). -/
def run_test_wrapper (s : Scaffold E) (tc : TestCase) (timeout : Nat) :
    Nat × List Event :=
  classify tc.srcfile (run_test_in_process s tc timeout)

/-- One entry of the `results` list built by `run_all_tests`
(harness.py:68-78). -/
structure ResultRecord where
  name : String
  score : Value
  max_score : Nat
  visibility : String
deriving DecidableEq, Repr, BEq

/-- Embedding of `get_score` (harness.py:111-113): number of result records whose
`score` field is truthy. -/
def get_score (results : List ResultRecord) : Nat :=
  (results.filter fun r => truthy r.score).length

/-- The body of the list comprehension in `run_all_tests`
(harness.py:68-78) for one test case. -/
def recordFor (s : Scaffold E) (timeout : Nat) (zero_credit : Bool)
    (tc : TestCase) : ResultRecord :=
  { name := tc.name
    score := .int (if zero_credit then 0 else (run_test_wrapper s tc timeout).1)
    max_score := 1
    visibility :=
      if truthy (tc.visible.getD (.bool false)) then ("visible")
      else ("after_published") }

/-- The sequential loop of the list comprehension in `run_all_tests`:
per-test records in submission order, per-test events concatenated. -/
def run_tests_loop (s : Scaffold E) (timeout : Nat) (zero_credit : Bool) :
    List TestCase → List ResultRecord × List Event
  | [] => ([], [])
  | tc :: rest =>
    let sr : Nat × List Event :=
      if zero_credit then (0, []) else run_test_wrapper s tc timeout
    let record : ResultRecord :=
      { name := tc.name
        score := .int sr.1
        max_score := 1
        visibility :=
          if truthy (tc.visible.getD (.bool false)) then ("visible")
          else ("after_published") }
    let rest2 := run_tests_loop s timeout zero_credit rest
    (record :: rest2.1, sr.2 ++ rest2.2)

/-- Embedding of `run_all_tests` (harness.py:62-80): header print, sequential loop,
summary print using `get_score`. -/
def run_all_tests (s : Scaffold E) (tests : List TestCase) (timeout : Nat)
    (zero_credit : Bool) : List ResultRecord × List Event :=
  let body := run_tests_loop s timeout zero_credit tests
  (body.1,
    .printed ("Running " ++ toString tests.length ++ " tests...")
      :: body.2
      ++ [.printed (toString (get_score body.1) ++ "/"
            ++ toString tests.length ++ " tests passed.")])

/-- JSON values, for the report writer. -/
inductive Json where
  | num : Int → Json
  | str : String → Json
  | bool : Bool → Json
  | null : Json
  | arr : List Json → Json
  | obj : List (String × Json) → Json
deriving BEq, Repr

/-- Embedding of `format_gradescope_output` (harness.py:83-87): numbers are wrapped as
`score`, everything else as `tests` (the `isinstance((int, float))`
check; floats are not modelled). -/
def format_gradescope_output : Json → Json
  | .num n => .obj [("score", .num n)]
  | other => .obj [("tests", other)]

/-- The single observable filesystem effect of `write_gradescope_output`:
which file is written and with which JSON data. -/
structure WriteOp where
  path : String
  data : Json
deriving BEq, Repr

/-- Embedding of `write_gradescope_output` (harness.py:90-98): pick
`/autograder/results` on prod and `.` otherwise, then write
`results.json` there with the formatted data (the mkdir side effect is
not modelled). -/
def write_gradescope_output (score : Json) (is_prod : Bool) : WriteOp :=
  let path := if is_prod then ("/autograder/results") else (".")
  { path := path ++ "/results.json"
    data := format_gradescope_output score }

/-- Embedding of `write_gradescope_output_failure` (harness.py:100-109): synthesize the
single "Pre-launch check" record and delegate. -/
def write_gradescope_output_failure (msg : String) (is_prod : Bool) : WriteOp :=
  write_gradescope_output
    (.arr [.obj [("score", .num 0), ("status", .str ("failed")),
                 ("name", .str ("Pre-launch check")), ("output", .str msg)]])
    is_prod

/-! ### Concrete fixtures for witnesses and counterexamples -/

/-- A concrete test case. -/
def tc0 : TestCase := { name := "t1", srcfile := "a.py", visible := Option.none }

/-- A scaffold whose `setup` raises immediately. -/
def setupRaisesScaffold : Scaffold Unit :=
  { setup := fun _ => .exn 0 ("setup exploded")
    run_test_case := fun _ _ => .ret 0 (.int 1) }

/-- A scaffold whose `run_test_case` raises after a successful setup. -/
def runRaisesScaffold : Scaffold Unit :=
  { setup := fun _ => .ret 0 ()
    run_test_case := fun _ _ => .exn 0 ("boom") }

/-- A scaffold whose `run_test_case` returns the truthy value `2`. -/
def returnsTwoScaffold : Scaffold Unit :=
  { setup := fun _ => .ret 0 ()
    run_test_case := fun _ _ => .ret 0 (.int 2) }

/-- A scaffold whose `run_test_case` never terminates. -/
def hangingScaffold : Scaffold Unit :=
  { setup := fun _ => .ret 0 ()
    run_test_case := fun _ _ => .diverge }

/-- A scaffold whose `run_test_case` returns `1`. -/
def passingScaffold : Scaffold Unit :=
  { setup := fun _ => .ret 0 ()
    run_test_case := fun _ _ => .ret 0 (.int 1) }

/-! ### C1: exception handling inside the worker -/

/-- C1 counterexample: `scaffold.setup` is called before the `try:` block of
`run_test`, so when `setup` raises, the exception is NOT caught inside
`run_test`: it propagates out (the worker dies with a traceback), nothing is
logged by `run_test`, and no score is pushed onto the result queue — the
worker observation is `exnOut`, not any normal `exits`. -/
theorem run_test_setup_exception_escapes :
    run_test setupRaisesScaffold tc0 = .exnOut 0 ("setup exploded") ∧
    ¬ ∃ t q prints, run_test setupRaisesScaffold tc0 = .exits t q prints := by
  constructor
  · rfl
  · rintro ⟨t, q, prints, h⟩
    rw [show run_test setupRaisesScaffold tc0 = .exnOut 0 ("setup exploded")
      from rfl] at h
    exact RunTestObs.noConfusion h

/-- C1 (amended): an exception raised during the run call (after `setup`
returned) is caught inside `run_test`, logged with the
"Exception during test" line, and a score of `0` is pushed onto the result
queue; an exception raised during the setup call instead propagates out of
`run_test`, leaving the queue empty. -/
theorem run_test_exception_handling (E : Type) (s : Scaffold E) (tc : TestCase) :
    (∀ t env t2 e, s.setup tc = .ret t env → s.run_test_case tc env = .exn t2 e →
      run_test s tc = .exits (t + t2) [.int 0] ["Exception during test: " ++ e]) ∧
    (∀ t e, s.setup tc = .exn t e → run_test s tc = .exnOut t e) := by
  constructor
  · intro t env t2 e hs hr
    simp [run_test, hs, hr]
  · intro t e hs
    simp [run_test, hs]

/-- Witness for C1's amended theorem at `runRaisesScaffold`. -/
theorem run_test_exception_handling_witness :
    run_test runRaisesScaffold tc0 =
      .exits (0 + 0) [.int 0] ["Exception during test: " ++ "boom"] :=
  (run_test_exception_handling Unit runRaisesScaffold tc0).1 0 () 0 ("boom") rfl rfl

/-! ### C2: which return values score 1 -/

/-- Helper: the `match` in `run_test_wrapper` only ever produces the scores
`0` and `1`. -/
theorem classify_fst_binary (srcfile : String) (vr : Value × List Event) :
    (classify srcfile vr).1 = 0 ∨ (classify srcfile vr).1 = 1 := by
  rcases vr with ⟨v, evs⟩
  by_cases h1 : v = Value.none
  · simp [classify, h1]
  · by_cases h2 : valueEqOne v = true <;> simp [classify, h1, h2]

/-- C2 counterexample: the scaffold's run method returning the truthy value
`2` within the timeout does NOT score 1: `run_test_wrapper` only matches the
literal `1`, so the test is scored 0 (and printed FAILED). -/
theorem truthy_two_scores_zero :
    truthy (Value.int 2) = true ∧
    run_test_in_process returnsTwoScaffold tc0 5 = (.int 2, [.spawn]) ∧
    (run_test_wrapper returnsTwoScaffold tc0 5).1 = 0 := by
  refine ⟨by decide, by decide, by decide⟩

/-- C2 (amended): for every scaffold, test case and timeout, the score
produced by `run_test_wrapper` is `1` exactly when the scaffold's setup
returns and its run method then returns, within the timeout, a value
matching the literal pattern `1` (`valueEqOne`); every other outcome —
a return value not equal to 1 (even a truthy one), an exception, a
timeout, a worker crash — yields exactly `0`. -/
theorem run_test_wrapper_passes_iff (E : Type) (s : Scaffold E) (tc : TestCase)
    (timeout : Nat) :
    ((run_test_wrapper s tc timeout).1 = 1 ↔
      ∃ t1 env t2 v, s.setup tc = .ret t1 env ∧
        s.run_test_case tc env = .ret t2 v ∧
        t1 + t2 ≤ timeout ∧ valueEqOne v = true) ∧
    ((run_test_wrapper s tc timeout).1 = 1 ∨ (run_test_wrapper s tc timeout).1 = 0) := by
  have hbin := classify_fst_binary tc.srcfile (run_test_in_process s tc timeout)
  constructor
  · constructor
    · intro hpass
      rcases hs : s.setup tc with ⟨t, env⟩ | ⟨t, e⟩ | _
      · rcases hr : s.run_test_case tc env with ⟨t2, v⟩ | ⟨t2, e⟩ | _
        · by_cases ht : timeout < t + t2
          · exfalso
            simp [run_test_wrapper, run_test_in_process, run_test, supervise,
              classify, hs, hr, ht] at hpass
          · refine ⟨t, env, t2, v, by simp [hs], by simp [hr], by omega, ?_⟩
            by_cases hv : valueEqOne v = true
            · exact hv
            · exfalso
              by_cases hvn : v = Value.none <;>
                simp [run_test_wrapper, run_test_in_process, run_test, supervise,
                  classify, hs, hr, ht, hvn, hv] at hpass
        · exfalso
          by_cases ht : timeout < t + t2 <;>
            simp [run_test_wrapper, run_test_in_process, run_test, supervise,
              classify, valueEqOne, hs, hr, ht] at hpass
        · exfalso
          simp [run_test_wrapper, run_test_in_process, run_test, supervise,
            classify, hs, hr] at hpass
      · exfalso
        by_cases ht : timeout < t <;>
          simp [run_test_wrapper, run_test_in_process, run_test, supervise,
            classify, valueEqOne, hs, ht] at hpass
      · exfalso
        simp [run_test_wrapper, run_test_in_process, run_test, supervise,
          classify, hs] at hpass
    · rintro ⟨t1, env, t2, v, hs, hr, ht, hv⟩
      have hnot : ¬ timeout < t1 + t2 := by omega
      have hvn : v ≠ Value.none := by
        cases v <;> simp [valueEqOne] at hv ⊢
      simp [run_test_wrapper, run_test_in_process, run_test, supervise,
        classify, hs, hr, hnot, hvn, hv]
  · exact hbin.symm

/-- Witness for C2's amended theorem: a scaffold returning `1` immediately
is scored 1. -/
theorem run_test_wrapper_passes_iff_witness :
    (run_test_wrapper passingScaffold tc0 5).1 = 1 :=
  ((run_test_wrapper_passes_iff Unit passingScaffold tc0 5).1).2
    ⟨0, (), 0, .int 1, rfl, rfl, by decide, rfl⟩

/-! ### C3: timeout supervision -/

/-- The check `p.is_alive()` after `p.join(timeout)` in `run_test_in_process`:
the worker is still alive after `timeout` seconds iff it diverges or
finishes (normally or by crash) only strictly after the deadline. -/
def aliveAfter : RunTestObs → Nat → Bool
  | .diverge, _ => true
  | .exnOut t _, timeout => timeout < t
  | .exits t _ _, timeout => timeout < t

/-- C3: whenever the worker process is still alive after `timeout` seconds,
the supervisor terminates it (`terminate`), reaps it (the second `join`),
and returns `None`; `run_test_wrapper` then scores the test 0 and prints
TIMED OUT. -/
theorem timeout_terminates_and_scores_zero (E : Type) (s : Scaffold E)
    (tc : TestCase) (timeout : Nat)
    (h : aliveAfter (run_test s tc) timeout = true) :
    run_test_in_process s tc timeout = (.none, [.spawn, .terminate, .reapJoin]) ∧
    run_test_wrapper s tc timeout =
      (0, [.printed ("Running " ++ tc.srcfile ++ "... "), .spawn, .terminate,
           .reapJoin, .printed ("TIMED OUT")]) := by
  have h1 : run_test_in_process s tc timeout =
      (.none, [.spawn, .terminate, .reapJoin]) := by
    unfold run_test_in_process
    rcases hw : run_test s tc with ⟨t, q, prints⟩ | ⟨t, e⟩ | _
    · rw [hw] at h
      simp [aliveAfter] at h
      simp [supervise, h]
    · rw [hw] at h
      simp [aliveAfter] at h
      simp [supervise, h]
    · simp [supervise]
  refine ⟨h1, ?_⟩
  simp [run_test_wrapper, h1, classify]

/-- Witness for C3 at a scaffold that hangs forever. -/
theorem timeout_terminates_witness :
    run_test_in_process hangingScaffold tc0 5 =
      (.none, [.spawn, .terminate, .reapJoin]) ∧
    run_test_wrapper hangingScaffold tc0 5 =
      (0, [.printed ("Running " ++ tc0.srcfile ++ "... "), .spawn, .terminate,
           .reapJoin, .printed ("TIMED OUT")]) :=
  timeout_terminates_and_scores_zero Unit hangingScaffold tc0 5 (by decide)

/-! ### C5: worker exits without publishing a result -/

/-- C5: when the worker exits within the deadline with an empty result
queue (here: an exception escaped `run_test`, crashing the worker), the
supervisor returns `0`, which `run_test_wrapper` scores 0 and prints as
FAILED — it is not distinguished from a logical test failure and no error
is raised by the harness.  The last conjunct states the empty-queue branch
of `supervise` for any worker observation that exits with an empty queue. -/
theorem worker_crash_scores_zero (E : Type) (s : Scaffold E) (tc : TestCase)
    (timeout t : Nat) (e : String)
    (hc : run_test s tc = .exnOut t e) (ht : t ≤ timeout) :
    run_test_in_process s tc timeout = (.int 0, [.spawn]) ∧
    run_test_wrapper s tc timeout =
      (0, [.printed ("Running " ++ tc.srcfile ++ "... "), .spawn,
           .printed ("FAILED")]) ∧
    ∀ prints, supervise (.exits t [] prints) timeout =
      (.int 0, .spawn :: prints.map .printed) := by
  have hnot : ¬ timeout < t := by omega
  have h1 : run_test_in_process s tc timeout = (.int 0, [.spawn]) := by
    simp [run_test_in_process, hc, supervise, hnot]
  refine ⟨h1, ?_, ?_⟩
  · simp [run_test_wrapper, h1, classify, valueEqOne]
  · intro prints
    simp [supervise, hnot]

/-- Witness for C5 at the scaffold whose setup raises (worker crash with
empty queue, well within the deadline). -/
theorem worker_crash_scores_zero_witness :
    run_test_in_process setupRaisesScaffold tc0 5 = (.int 0, [.spawn]) ∧
    run_test_wrapper setupRaisesScaffold tc0 5 =
      (0, [.printed ("Running " ++ tc0.srcfile ++ "... "), .spawn,
           .printed ("FAILED")]) ∧
    ∀ prints, supervise (.exits 0 [] prints) 5 =
      (.int 0, .spawn :: prints.map .printed) :=
  worker_crash_scores_zero Unit setupRaisesScaffold tc0 5 0 ("setup exploded")
    rfl (by decide)

/-! ### C4: one record per test case, in submission order -/

/-- Helper: the sequential loop produces exactly the per-test records, in
input order. -/
theorem run_tests_loop_map (E : Type) (s : Scaffold E) (timeout : Nat)
    (zc : Bool) (tests : List TestCase) :
    (run_tests_loop s timeout zc tests).1 = tests.map (recordFor s timeout zc) := by
  induction tests with
  | nil => rfl
  | cons tc rest ih =>
    cases zc <;> simp [run_tests_loop, recordFor, ih]

/-- C4: `run_all_tests` returns one `ResultRecord` per input test case —
the result list has the same length as the input list, and record `i` is
built from test case `i` (`recordFor` is the body of the list
comprehension). -/
theorem run_all_tests_length_and_order (E : Type) (s : Scaffold E)
    (tests : List TestCase) (timeout : Nat) (zc : Bool) :
    (run_all_tests s tests timeout zc).1.length = tests.length ∧
    (run_all_tests s tests timeout zc).1 = tests.map (recordFor s timeout zc) := by
  have h := run_tests_loop_map E s timeout zc tests
  constructor
  · simp [run_all_tests, h]
  · simp [run_all_tests, h]

/-! ### C6: zero_credit skips the execution pipeline -/

/-- Whether an `Event` is a worker-process spawn (`p.start()`). -/
def Event.isSpawn : Event → Bool
  | .spawn => true
  | _ => false

/-- Helper: with `zero_credit` the loop performs no side effects at all —
in particular it never calls `run_test_wrapper`, so no process is
spawned — and scores every record 0. -/
theorem run_tests_loop_zero_credit (E : Type) (s : Scaffold E) (timeout : Nat)
    (tests : List TestCase) :
    run_tests_loop s timeout true tests =
      (tests.map (recordFor s timeout true), []) := by
  induction tests with
  | nil => rfl
  | cons tc rest ih => simp [run_tests_loop, recordFor, ih]

/-- C6: with `zero_credit = true`, every record produced by
`run_all_tests` has score 0, and the event trace contains no process
spawn (the per-test pipeline `run_test_wrapper` → `run_test_in_process`
is never invoked). -/
theorem zero_credit_all_zero_no_spawn (E : Type) (s : Scaffold E)
    (tests : List TestCase) (timeout : Nat) :
    (run_all_tests s tests timeout true).1 = tests.map (recordFor s timeout true) ∧
    ((run_all_tests s tests timeout true).1.all fun r =>
      decide (r.score = Value.int 0)) = true ∧
    ((run_all_tests s tests timeout true).2.all fun ev => ! ev.isSpawn) = true := by
  have hloop := run_tests_loop_zero_credit E s timeout tests
  refine ⟨?_, ?_, ?_⟩
  · simp [run_all_tests, hloop]
  · simp [run_all_tests, hloop, List.all_map, Function.comp, recordFor]
  · simp [run_all_tests, hloop, Event.isSpawn]

/-! ### C7: the aggregator counts nonzero scores -/

/-- Whether a `Value` is a Python int. -/
def Value.isInt : Value → Bool
  | .int _ => true
  | _ => false

/-- Helper: on records with integer scores, truthiness of the score is
exactly "nonzero". -/
theorem get_score_eq_count_nonzero_aux (results : List ResultRecord)
    (h : (results.all fun r => r.score.isInt) = true) :
    get_score results = (results.filter fun r => r.score ≠ Value.int 0).length := by
  induction results with
  | nil => rfl
  | cons r rest ih =>
    rw [List.all_cons, Bool.and_eq_true] at h
    obtain ⟨h1, h2⟩ := h
    have ih2 := ih h2
    rcases hsc : r.score with n | b | st | _
    · by_cases hn : n = 0 <;>
        simp [get_score, List.filter_cons, hsc, truthy, hn] at ih2 ⊢ <;> omega
    · rw [hsc] at h1
      simp [Value.isInt] at h1
    · rw [hsc] at h1
      simp [Value.isInt] at h1
    · rw [hsc] at h1
      simp [Value.isInt] at h1

/-- Helper: on 0/1 integer scores, truthiness of the score is exactly
"equal to 1". -/
theorem get_score_eq_count_one_aux (results : List ResultRecord)
    (h : (results.all fun r =>
      decide (r.score = Value.int 0) || decide (r.score = Value.int 1)) = true) :
    get_score results = (results.filter fun r => r.score = Value.int 1).length := by
  induction results with
  | nil => rfl
  | cons r rest ih =>
    rw [List.all_cons, Bool.and_eq_true] at h
    obtain ⟨h1, h2⟩ := h
    have ih2 := ih h2
    rw [Bool.or_eq_true, decide_eq_true_eq, decide_eq_true_eq] at h1
    rcases h1 with h1 | h1 <;>
      simp [get_score, List.filter_cons, h1, truthy] at ih2 ⊢ <;> omega

/-- C7: `get_score` returns, for any result list whose scores are integers
(including the empty list), the number of records with nonzero score;
for 0/1 scores this is the number of records with score equal to 1.
(`get_score` is a Lean function, hence trivially a pure function of its
input.) -/
theorem get_score_counts_nonzero (results : List ResultRecord)
    (h : (results.all fun r => r.score.isInt) = true) :
    get_score results = (results.filter fun r => r.score ≠ Value.int 0).length ∧
    get_score ([] : List ResultRecord) = 0 ∧
    (((results.all fun r =>
        decide (r.score = Value.int 0) || decide (r.score = Value.int 1)) = true) →
      get_score results = (results.filter fun r => r.score = Value.int 1).length) :=
  ⟨get_score_eq_count_nonzero_aux results h, rfl,
   fun h01 => get_score_eq_count_one_aux results h01⟩

/-- A concrete result list: one passed test, one failed test. -/
def sampleResults : List ResultRecord :=
  [{ name := "t1", score := .int 1, max_score := 1, visibility := "visible" },
   { name := "t2", score := .int 0, max_score := 1, visibility := "after_published" }]

/-- Witness for C7 on a concrete two-record list. -/
theorem get_score_counts_nonzero_witness :
    (get_score sampleResults =
      (sampleResults.filter fun r => r.score ≠ Value.int 0).length) ∧
    get_score sampleResults = 1 :=
  ⟨(get_score_counts_nonzero sampleResults (by decide)).1, by decide⟩

/-! ### C8: report serialization and target path -/

/-- C8: a bare number is serialized as a `score` object, a results
collection as a `tests` object; the file written is `results.json` under
`/autograder/results` in production mode and under the current directory
otherwise. -/
theorem report_writer_shape (n : Int) (rs : List Json) :
    format_gradescope_output (.num n) = .obj [("score", .num n)] ∧
    format_gradescope_output (.arr rs) = .obj [("tests", .arr rs)] ∧
    write_gradescope_output (.num n) true =
      { path := "/autograder/results/results.json"
        data := .obj [("score", .num n)] } ∧
    write_gradescope_output (.num n) false =
      { path := "./results.json", data := .obj [("score", .num n)] } ∧
    write_gradescope_output (.arr rs) true =
      { path := "/autograder/results/results.json"
        data := .obj [("tests", .arr rs)] } ∧
    write_gradescope_output (.arr rs) false =
      { path := "./results.json", data := .obj [("tests", .arr rs)] } :=
  ⟨rfl, rfl, rfl, rfl, rfl, rfl⟩

/-! ### C9: the failure report -/

/-- C9: `write_gradescope_output_failure` delegates to
`write_gradescope_output` with exactly one record
`{score: 0, status: "failed", name: "Pre-launch check", output: msg}`,
which the writer wraps as `{"tests": [...]}` and stores at the flag-chosen
path. -/
theorem failure_report_shape (msg : String) (is_prod : Bool) :
    write_gradescope_output_failure msg is_prod =
      write_gradescope_output
        (.arr [.obj [("score", .num 0), ("status", .str ("failed")),
                     ("name", .str ("Pre-launch check")),
                     ("output", .str msg)]]) is_prod ∧
    (write_gradescope_output_failure msg is_prod).data =
      .obj [("tests", .arr [.obj [("score", .num 0), ("status", .str ("failed")),
             ("name", .str ("Pre-launch check")), ("output", .str msg)]])] ∧
    (write_gradescope_output_failure msg is_prod).path =
      (if is_prod then ("/autograder/results") else (".")) ++ "/results.json" :=
  ⟨rfl, rfl, rfl⟩

/-! ### C10: all scores are 0 or 1 with max_score 1 -/

/-- C10: whatever value the scaffold returns (truthy, ints other than 1,
strings, `None`), `run_test_wrapper` produces only the scores 0 and 1, so
every record built by `run_all_tests` has score in `{0, 1}` and
`max_score = 1`. -/
theorem scores_are_binary (E : Type) (s : Scaffold E) (tc : TestCase)
    (tests : List TestCase) (timeout : Nat) (zc : Bool) :
    ((run_test_wrapper s tc timeout).1 = 0 ∨ (run_test_wrapper s tc timeout).1 = 1) ∧
    ((run_all_tests s tests timeout zc).1.all fun r =>
      (decide (r.score = Value.int 0) || decide (r.score = Value.int 1))
        && decide (r.max_score = 1)) = true := by
  constructor
  · exact classify_fst_binary tc.srcfile (run_test_in_process s tc timeout)
  · have hmap := run_tests_loop_map E s timeout zc tests
    have hall : ∀ tc2 : TestCase,
        ((decide ((recordFor s timeout zc tc2).score = Value.int 0) ||
          decide ((recordFor s timeout zc tc2).score = Value.int 1))
          && decide ((recordFor s timeout zc tc2).max_score = 1)) = true := by
      intro tc2
      rcases classify_fst_binary tc2.srcfile (run_test_in_process s tc2 timeout)
        with h | h <;> cases zc <;> simp [recordFor, run_test_wrapper, h]
    have h1 : (run_all_tests s tests timeout zc).1 =
        tests.map (recordFor s timeout zc) := by
      simp [run_all_tests, hmap]
    rw [h1, List.all_eq_true]
    intro r hr
    rw [List.mem_map] at hr
    obtain ⟨tc2, _, rfl⟩ := hr
    exact hall tc2

end Harness
